import Mathlib

/-!
Verification of the tver-dl download orchestration core
(src/src-tauri/src/main.rs) via a shallow embedding.

JSON values are modelled as an inductive; serde serialization and
deserialization of the data model are embedded at the JSON-value level
(serde_json printing and re-parsing of a value is the identity at this
level). The filesystem state relevant to the core is the content of the
single persisted config.json file, modelled as an optional JSON value.
-/

namespace TverDl

/-- JSON values as produced and consumed by serde_json. The data model of
main.rs contains only strings, booleans, lists, objects and null (from
optional fields), so no number constructor is needed. -/
inductive Json where
  | null : Json
  | bool : Bool → Json
  | str : String → Json
  | arr : List Json → Json
  | obj : List (String × Json) → Json

/-- Field lookup in a JSON object field list, first match wins
(models serde_json map lookup; encoded objects never repeat keys). -/
def lookupField : List (String × Json) → String → Option Json
  | [], _ => none
  | (k, v) :: rest, key => if k = key then some v else lookupField rest key

/-- Models serde_json Value::get: field access on objects, none otherwise. -/
def Json.get : Json → String → Option Json
  | Json.obj fields, key => lookupField fields key
  | _, _ => none

/-- Models serde_json Value::as_str. -/
def Json.asStr : Json → Option String
  | Json.str s => some s
  | _ => none

/-- Models deserializing a JSON value as a Rust bool. -/
def Json.asBool : Json → Option Bool
  | Json.bool b => some b
  | _ => none

/-- The Series struct of main.rs (lines 17-25). -/
structure Series where
  name : String
  url : String
  enabled : Bool
  include_patterns : List String
  exclude_patterns : List String
  thumbnail_url : Option String
deriving DecidableEq

/-- The Config struct of main.rs (lines 8-15). -/
structure Config where
  series : List Series
  download_path : String
  archive_file : String
  debug : Bool
  yt_dlp_options : List String
deriving DecidableEq

/-- The Episode struct of main.rs (lines 27-32). -/
structure Episode where
  url : String
  title : String
  id : String
deriving DecidableEq

/-- Serde serialization of an optional string field: None becomes null
(no skip_serializing_if attribute is present in the source). -/
def encodeOptStr : Option String → Json
  | none => Json.null
  | some s => Json.str s

/-- Serde serialization of a Vec of strings. -/
def encodeStrList (l : List String) : Json :=
  Json.arr (l.map Json.str)

/-- Derived serde Serialize for Series: an object keyed by the field names. -/
def encodeSeries (s : Series) : Json :=
  Json.obj [("name", Json.str s.name),
            ("url", Json.str s.url),
            ("enabled", Json.bool s.enabled),
            ("include_patterns", encodeStrList s.include_patterns),
            ("exclude_patterns", encodeStrList s.exclude_patterns),
            ("thumbnail_url", encodeOptStr s.thumbnail_url)]

/-- Derived serde Serialize for Config. -/
def encodeConfig (c : Config) : Json :=
  Json.obj [("series", Json.arr (c.series.map encodeSeries)),
            ("download_path", Json.str c.download_path),
            ("archive_file", Json.str c.archive_file),
            ("debug", Json.bool c.debug),
            ("yt_dlp_options", encodeStrList c.yt_dlp_options)]

/-- Element-wise deserialization of a Vec of strings; any non-string
element fails the whole vector, as in serde. -/
def decodeStrings : List Json → Option (List String)
  | [] => some []
  | j :: rest =>
      match Json.asStr j, decodeStrings rest with
      | some s, some tail => some (s :: tail)
      | _, _ => none

/-- Derived serde Deserialize for Vec of String. -/
def decodeStrList : Json → Option (List String)
  | Json.arr items => decodeStrings items
  | _ => none

/-- Derived serde Deserialize for an Option of String field: a missing key
or null gives None, a string gives Some, any other value is an error. -/
def decodeOptStrField : Option Json → Option (Option String)
  | none => some none
  | some Json.null => some none
  | some (Json.str s) => some (some s)
  | some _ => none

/-- Derived serde Deserialize for Series: every non-optional field is
required with the right type; unknown fields are ignored. -/
def decodeSeries (j : Json) : Option Series :=
  match Option.bind (Json.get j "name") Json.asStr,
        Option.bind (Json.get j "url") Json.asStr,
        Option.bind (Json.get j "enabled") Json.asBool,
        Option.bind (Json.get j "include_patterns") decodeStrList,
        Option.bind (Json.get j "exclude_patterns") decodeStrList,
        decodeOptStrField (Json.get j "thumbnail_url") with
  | some name, some url, some enabled, some inc, some exc, some thumb =>
      some ⟨name, url, enabled, inc, exc, thumb⟩
  | _, _, _, _, _, _ => none

/-- Element-wise deserialization of a Vec of Series. -/
def decodeSeriesList : List Json → Option (List Series)
  | [] => some []
  | j :: rest =>
      match decodeSeries j, decodeSeriesList rest with
      | some s, some tail => some (s :: tail)
      | _, _ => none

/-- Derived serde Deserialize for the series vector. -/
def decodeSeriesArr : Json → Option (List Series)
  | Json.arr items => decodeSeriesList items
  | _ => none

/-- Derived serde Deserialize for Config. -/
def decodeConfig (j : Json) : Option Config :=
  match Option.bind (Json.get j "series") decodeSeriesArr,
        Option.bind (Json.get j "download_path") Json.asStr,
        Option.bind (Json.get j "archive_file") Json.asStr,
        Option.bind (Json.get j "debug") Json.asBool,
        Option.bind (Json.get j "yt_dlp_options") decodeStrList with
  | some series, some dp, some af, some dbg, some opts =>
      some ⟨series, dp, af, dbg, opts⟩
  | _, _, _, _, _ => none

theorem decodeStrings_encode (l : List String) :
    decodeStrings (List.map Json.str l) = some l := by
  induction l with
  | nil => rfl
  | cons a t ih => simp [decodeStrings, Json.asStr, ih]

theorem decodeSeries_encodeSeries (s : Series) :
    decodeSeries (encodeSeries s) = some s := by
  obtain ⟨n, u, e, inc, exc, t⟩ := s
  cases t with
  | none =>
      simp [decodeSeries, encodeSeries, Json.get, lookupField, Json.asStr, Json.asBool,
        encodeStrList, decodeStrList, decodeStrings_encode, decodeOptStrField, encodeOptStr]
  | some v =>
      simp [decodeSeries, encodeSeries, Json.get, lookupField, Json.asStr, Json.asBool,
        encodeStrList, decodeStrList, decodeStrings_encode, decodeOptStrField, encodeOptStr]

theorem decodeSeriesList_encode (l : List Series) :
    decodeSeriesList (List.map encodeSeries l) = some l := by
  induction l with
  | nil => rfl
  | cons a t ih => simp [decodeSeriesList, decodeSeries_encodeSeries, ih]

theorem decodeConfig_encodeConfig (c : Config) :
    decodeConfig (encodeConfig c) = some c := by
  obtain ⟨s, dp, af, dbg, opts⟩ := c
  simp [decodeConfig, encodeConfig, Json.get, lookupField, Json.asStr, Json.asBool,
    encodeStrList, decodeStrList, decodeStrings_encode, decodeSeriesArr,
    decodeSeriesList_encode]

/-- Path join as used by main.rs via PathBuf::join with a relative literal
component; modelled on strings with the unix separator. -/
def joinPath (a b : String) : String :=
  if a = "" then b else a ++ "/" ++ b

/-- The fixed default yt_dlp_options list written by load_config
(main.rs lines 93-99). -/
def defaultYtDlpOptions : List String :=
  ["-o", "%(series)s/%(title)s.%(ext)s", "--write-sub", "--sub-lang", "ja"]

/-- The default Config synthesized by load_config when no config file
exists (main.rs lines 88-100); appDir is the app data directory path. -/
def defaultConfig (appDir : String) : Config :=
  ⟨[], joinPath appDir "downloads", "downloaded.txt", false, defaultYtDlpOptions⟩

/-- The load_config command (main.rs lines 79-113). The filesystem state
relevant to the core is the content of config.json, an optional JSON
value; the function returns the loaded Config together with the resulting
file state. The IO failure paths (data directory missing, read or write
errors) are outside this state model; the serde parse error text is
abstracted to a fixed message, since no claim observes it. -/
def load_config (appDir : String) (file : Option Json) :
    Except String (Config × Option Json) :=
  match file with
  | none =>
      Except.ok (defaultConfig appDir, some (encodeConfig (defaultConfig appDir)))
  | some j =>
      match decodeConfig j with
      | some c => Except.ok (c, some j)
      | none => Except.error "config parse error"

/-- The save_config command (main.rs lines 117-127): serializes the given
Config and overwrites config.json, regardless of its previous content. -/
def save_config (c : Config) (_old : Option Json) : Option Json :=
  some (encodeConfig c)

/-- One network-location service outcome as observed by check_vpn: the
request can fail, the body can fail to decode as JSON, or a JSON value is
obtained (main.rs lines 54-55, the two nested if-lets). -/
inductive ServiceResponse where
  | noResponse : ServiceResponse
  | notJson : ServiceResponse
  | json : Json → ServiceResponse

/-- True exactly when the service produced a JSON-decodable body. -/
def ServiceResponse.isJson : ServiceResponse → Bool
  | ServiceResponse.json _ => true
  | _ => false

/-- Country code extraction of check_vpn (main.rs lines 56-59): the
country_code key, else the cc key, as a string, defaulting to empty. -/
def vpnCountry (data : Json) : String :=
  Option.getD
    (Option.bind
      (Option.orElse (Json.get data "country_code") (fun _ => Json.get data "cc"))
      Json.asStr) ""

/-- IP extraction of check_vpn (main.rs lines 61-63). -/
def vpnIp (data : Json) : String :=
  Option.getD (Option.bind (Json.get data "ip") Json.asStr) "unknown"

/-- The check_vpn command (main.rs lines 44-75), as a function of the
outcomes of the queried services in their fixed order: the first
JSON-decodable body decides; failed or undecodable services are skipped;
an exhausted list yields the generic failure. -/
def check_vpn : List ServiceResponse → Except String String
  | [] => Except.error "Could not verify VPN connection"
  | ServiceResponse.json data :: _ =>
      if vpnCountry data = "JP" then
        Except.ok ("Connected via Japan IP (" ++ vpnIp data ++ ")")
      else
        Except.error ("Not connected to Japan VPN (detected: " ++ vpnCountry data ++
          ", IP: " ++ vpnIp data ++ ")")
  | ServiceResponse.noResponse :: rest => check_vpn rest
  | ServiceResponse.notJson :: rest => check_vpn rest

/-- Derived serde Deserialize for Episode. -/
def decodeEpisode (j : Json) : Option Episode :=
  match Option.bind (Json.get j "url") Json.asStr,
        Option.bind (Json.get j "title") Json.asStr,
        Option.bind (Json.get j "id") Json.asStr with
  | some url, some title, some id => some ⟨url, title, id⟩
  | _, _, _ => none

/-- Element-wise deserialization of a Vec of Episode. -/
def decodeEpisodeList : List Json → Option (List Episode)
  | [] => some []
  | j :: rest =>
      match decodeEpisode j, decodeEpisodeList rest with
      | some e, some tail => some (e :: tail)
      | _, _ => none

/-- Derived serde Deserialize for Vec of Episode. -/
def decodeEpisodes : Json → Option (List Episode)
  | Json.arr items => decodeEpisodeList items
  | _ => none

/-- Captured output of a finished one-shot subprocess: exit success flag,
the stdout bytes viewed as an optional JSON value (none when they are not
valid JSON), and the stderr text. -/
structure ProcessOutput where
  success : Bool
  stdout : Option Json
  stderr : String

/-- The error message fetch_episodes builds when stdout does not parse as
a Vec of Episode (main.rs line 156). The serde error rendering after the
colon is abstracted to a fixed placeholder, since no claim observes it. -/
def episodeParseError : String :=
  "Failed to parse episodes: invalid episode list output"

/-- The fetch_episodes command (main.rs lines 140-159), as a function of
the resolver subprocess output: non-zero exit returns stderr verbatim as
the error; on success exit the stdout is parsed as an episode list, and a
parse failure is a distinct error. -/
def fetch_episodes (out : ProcessOutput) : Except String (List Episode) :=
  if out.success = false then
    Except.error out.stderr
  else
    match Option.bind out.stdout decodeEpisodes with
    | some eps => Except.ok eps
    | none => Except.error episodeParseError

/-- Behavior of one worker subprocess run: either the spawn fails with an
OS error message, or the process runs, producing a list of stdout text
lines, an exit success flag, and stderr text (which download_episodes
pipes but never reads). -/
inductive WorkerRun where
  | spawnFailed : String → WorkerRun
  | ran : List String → Bool → String → WorkerRun

/-- One observable event of a download_episodes run, in order: a
"download-progress" notification carrying one stdout line, or the
terminal result returned to the caller. -/
inductive Event where
  | progress : String → Event
  | result : Except String String → Event

/-- The observable trace of the download_episodes command (main.rs lines
183-204): on spawn failure, only the error result; otherwise one progress
event per stdout line in arrival order, followed by the terminal result
classified from the exit status. The config argument is never read by the
source. -/
def download_episodes_trace (_config : Config) : WorkerRun → List Event
  | WorkerRun.spawnFailed e =>
      [Event.result (Except.error ("Failed to start download: " ++ e))]
  | WorkerRun.ran lines exitSuccess _stderr =>
      lines.map Event.progress ++
        [Event.result (if exitSuccess then
            Except.ok "Download completed successfully"
          else
            Except.error "Download failed")]

/-- The command line download_episodes spawns (main.rs lines 176-179):
python3 with the worker script path and the path of the persisted
config.json under the app data directory. The config argument is never
read by the source. -/
def download_command (scriptPath appDir : String) (_config : Config) : List String :=
  ["python3", scriptPath, "--config", joinPath appDir "config.json"]

/-- Modelled from the spec: the worker executable itself is not under
src/; per the worker process invocation contract, a worker given the
persisted config.json path reads and parses that file, so the
configuration it observes is the decoding of the persisted file content. -/
def workerObservedConfig (file : Option Json) : Option Config :=
  Option.bind file decodeConfig

/-- Concrete series value used by witnesses; its thumbnail is absent. -/
def series0 : Series :=
  ⟨"Show A", "https://example.test/a", true, ["ep"], [], none⟩

/-- Concrete configuration used by witnesses and counterexamples. -/
def cfgA : Config :=
  ⟨[series0], "/data/dl", "downloaded.txt", false, ["-o"]⟩

/-- A second concrete configuration, different from cfgA. -/
def cfgB : Config :=
  ⟨[], "/other", "archive.txt", true, []⟩

/-- Concrete location-service body with a Japanese country code. -/
def jsonJP : Json :=
  Json.obj [("country_code", Json.str "JP"), ("ip", Json.str "1.2.3.4")]

theorem joinPath_ne_empty (a b : String) (hb : b ≠ "") : joinPath a b ≠ "" := by
  unfold joinPath
  split
  · exact hb
  · intro h
    have hl := congrArg String.length h
    simp only [String.length_append] at hl
    have h1 : ("/" : String).length = 1 := by decide
    have h0 : ("" : String).length = 0 := by decide
    omega

theorem check_vpn_append (pre l : List ServiceResponse)
    (hpre : ∀ r ∈ pre, r.isJson = false) :
    check_vpn (pre ++ l) = check_vpn l := by
  induction pre with
  | nil => rfl
  | cons r t ih =>
      have hr := hpre r (List.mem_cons_self r t)
      have ht : ∀ x ∈ t, x.isJson = false := fun x hx => hpre x (List.mem_cons_of_mem r hx)
      cases r with
      | json j => simp [ServiceResponse.isJson] at hr
      | noResponse => simpa [check_vpn] using ih ht
      | notJson => simpa [check_vpn] using ih ht

/-- C1: for every sequence of N stdout lines produced by the worker during
one download_episodes run, the trace contains exactly N progress
notifications, one per line in arrival order, all of them preceding the
single terminal result of the run. -/
theorem download_progress_stream_order (config : Config) (lines : List String)
    (exitSuccess : Bool) (stderr : String) :
    ∃ r : Except String String,
      download_episodes_trace config (WorkerRun.ran lines exitSuccess stderr) =
        lines.map Event.progress ++ [Event.result r] :=
  ⟨if exitSuccess then Except.ok "Download completed successfully"
    else Except.error "Download failed", rfl⟩

/-- C2 counterexample: download_episodes invoked with configuration cfgA
while the persisted file holds cfgB spawns the very same worker command as
when invoked with cfgB, and the worker observes cfgB, not the passed
cfgA; hence the worker does not read the configuration passed by the
caller. -/
theorem download_config_arg_ignored_cex :
    download_command "tver_downloader.py" "appdir" cfgA =
      download_command "tver_downloader.py" "appdir" cfgB ∧
    workerObservedConfig (some (encodeConfig cfgB)) = some cfgB ∧
    workerObservedConfig (some (encodeConfig cfgB)) ≠ some cfgA := by
  refine ⟨rfl, ?_, ?_⟩
  · simp [workerObservedConfig, decodeConfig_encodeConfig]
  · simp [workerObservedConfig, decodeConfig_encodeConfig]
    decide

/-- C2 amended: download_episodes invokes the worker with the path of the
persisted on-disk config.json, independent of the configuration argument,
so the worker reads the persisted configuration; when the persisted file
holds a configuration c (as after save_config c), the worker observes
exactly c, untransformed. -/
theorem download_reads_persisted_config (scriptPath appDir : String)
    (passed c : Config) (old : Option Json) :
    download_command scriptPath appDir passed =
      ["python3", scriptPath, "--config", joinPath appDir "config.json"] ∧
    workerObservedConfig (save_config c old) = some c := by
  refine ⟨rfl, ?_⟩
  simp [workerObservedConfig, save_config, decodeConfig_encodeConfig]

/-- C3 counterexample: a worker run that exits non-zero with stderr text
"boom" after two lines yields the fixed terminal error "Download failed";
the trace is identical when stderr is empty, so the captured stderr
content is not carried by the failure. -/
theorem download_stderr_dropped_cex :
    download_episodes_trace cfgA (WorkerRun.ran ["a", "b"] false "boom") =
      [Event.progress "a", Event.progress "b",
       Event.result (Except.error "Download failed")] ∧
    download_episodes_trace cfgA (WorkerRun.ran ["a", "b"] false "boom") =
      download_episodes_trace cfgA (WorkerRun.ran ["a", "b"] false "") ∧
    ("Download failed" : String) ≠ "boom" :=
  ⟨rfl, rfl, by decide⟩

/-- C3 amended: a worker run that exits non-zero after emitting K lines
resolves to the fixed error message "Download failed", which does not
carry the captured stderr content, and the K progress notifications
already emitted remain in the trace before the terminal result. -/
theorem download_worker_failed_trace (config : Config) (lines : List String)
    (stderr : String) :
    download_episodes_trace config (WorkerRun.ran lines false stderr) =
      lines.map Event.progress ++ [Event.result (Except.error "Download failed")] :=
  rfl

/-- C4: saving any Configuration c and then loading reconstructs c
field-for-field together with the saved file state; moreover a Series
whose optional thumbnail_url is absent decodes back to absent from its
encoding, and its encoding is distinct from that of any otherwise
arbitrary Series carrying an empty-string thumbnail. -/
theorem save_load_roundtrip (appDir : String) (old : Option Json) (c : Config)
    (s : Series) (hs : s.thumbnail_url = none) :
    load_config appDir (save_config c old) = Except.ok (c, save_config c old) ∧
    decodeSeries (encodeSeries s) = some s ∧
    ∀ s2 : Series, s2.thumbnail_url = some "" → encodeSeries s ≠ encodeSeries s2 := by
  refine ⟨?_, decodeSeries_encodeSeries s, ?_⟩
  · simp [load_config, save_config, decodeConfig_encodeConfig]
  · intro s2 h2 h
    simp [encodeSeries, encodeOptStr, hs, h2] at h

/-- C4 witness: the round trip evaluated at the concrete configuration
cfgA, whose single series has an absent thumbnail. -/
theorem save_load_roundtrip_witness :
    load_config "/appdata" (save_config cfgA none) =
      Except.ok (cfgA, save_config cfgA none) :=
  (save_load_roundtrip "/appdata" none cfgA series0 rfl).1

/-- C5: once the concatenated service list reaches its first
JSON-decodable body, check_vpn decides from that body alone, whatever
comes after: the JP country code (first key country_code, else cc,
defaulting to empty) yields the success message carrying the observed IP,
any other code yields the denial naming the code and the IP; and a body
lacking both country keys resolves to the empty code and is therefore a
wrong-country denial, not the could-not-verify failure. -/
theorem check_vpn_first_json_decides (pre rest : List ServiceResponse) (data : Json)
    (hpre : ∀ r ∈ pre, r.isJson = false) :
    check_vpn (pre ++ ServiceResponse.json data :: rest) =
      (if vpnCountry data = "JP" then
        Except.ok ("Connected via Japan IP (" ++ vpnIp data ++ ")")
      else
        Except.error ("Not connected to Japan VPN (detected: " ++ vpnCountry data ++
          ", IP: " ++ vpnIp data ++ ")")) ∧
    (Json.get data "country_code" = none → Json.get data "cc" = none →
      vpnCountry data = "" ∧
      check_vpn (pre ++ ServiceResponse.json data :: rest) =
        Except.error ("Not connected to Japan VPN (detected: " ++ vpnCountry data ++
          ", IP: " ++ vpnIp data ++ ")")) := by
  have hskip := check_vpn_append pre (ServiceResponse.json data :: rest) hpre
  constructor
  · rw [hskip]
    rfl
  · intro h1 h2
    have hc : vpnCountry data = "" := by
      simp [vpnCountry, h1, h2, Option.orElse]
    refine ⟨hc, ?_⟩
    rw [hskip]
    simp [check_vpn, hc]

/-- C5 witness: one non-responsive service followed by a service returning
a JP body decides successfully with the observed IP, ignoring the
remaining service. -/
theorem check_vpn_first_json_decides_witness :
    check_vpn ([ServiceResponse.noResponse] ++
        ServiceResponse.json jsonJP :: [ServiceResponse.notJson]) =
      Except.ok "Connected via Japan IP (1.2.3.4)" := by
  have h := (check_vpn_first_json_decides [ServiceResponse.noResponse]
    [ServiceResponse.notJson] jsonJP (by decide)).1
  rw [h]
  rfl

/-- C6: a service whose request fails and a service whose body is not JSON
are each skipped in favor of the rest of the fixed order, and a list
exhausted without any JSON-decodable body yields the generic
could-not-verify failure rather than a wrong-location denial. -/
theorem check_vpn_skip_and_exhaust (rest l : List ServiceResponse)
    (hl : ∀ r ∈ l, r.isJson = false) :
    check_vpn (ServiceResponse.noResponse :: rest) = check_vpn rest ∧
    check_vpn (ServiceResponse.notJson :: rest) = check_vpn rest ∧
    check_vpn l = Except.error "Could not verify VPN connection" := by
  refine ⟨rfl, rfl, ?_⟩
  have h := check_vpn_append l [] hl
  simpa using h

/-- C6 witness: a failed request followed by an undecodable body exhausts
the list and yields the generic failure. -/
theorem check_vpn_skip_and_exhaust_witness :
    check_vpn [ServiceResponse.noResponse, ServiceResponse.notJson] =
      Except.error "Could not verify VPN connection" :=
  (check_vpn_skip_and_exhaust []
    [ServiceResponse.noResponse, ServiceResponse.notJson] (by decide)).2.2

/-- C7: fetch_episodes on a resolver that exits non-zero returns exactly
the captured stderr text as the error; on a zero exit whose stdout does
not parse as an episode list it returns the distinct parse-failure error
and in particular never returns any successful episode list. -/
theorem fetch_episodes_error_classification (out : ProcessOutput) :
    (out.success = false → fetch_episodes out = Except.error out.stderr) ∧
    (out.success = true → Option.bind out.stdout decodeEpisodes = none →
      fetch_episodes out = Except.error episodeParseError ∧
      ∀ eps : List Episode, fetch_episodes out ≠ Except.ok eps) := by
  constructor
  · intro h
    simp [fetch_episodes, h]
  · intro h hparse
    constructor
    · simp [fetch_episodes, h, hparse]
    · intro eps
      simp [fetch_episodes, h, hparse]

/-- C7 witness: a resolver failing with stderr "rate limited" yields that
text verbatim, and a resolver succeeding with non-JSON stdout never yields
a successful empty list. -/
theorem fetch_episodes_error_classification_witness :
    fetch_episodes ⟨false, none, "rate limited"⟩ = Except.error "rate limited" ∧
    fetch_episodes ⟨true, none, ""⟩ ≠ Except.ok [] :=
  ⟨(fetch_episodes_error_classification ⟨false, none, "rate limited"⟩).1 rfl,
   ((fetch_episodes_error_classification ⟨true, none, ""⟩).2 rfl rfl).2 []⟩

/-- C8: with no persisted file, load_config synthesizes, persists and
returns the default configuration: empty series list, download path
joined from the app data directory (hence non-empty), the fixed archive
filename, debug off, and the fixed non-empty default worker-option list;
a second load_config on the resulting state returns the same values with
the file state unchanged. -/
theorem load_config_default_creation (appDir : String) :
    load_config appDir none =
      Except.ok (defaultConfig appDir, some (encodeConfig (defaultConfig appDir))) ∧
    (defaultConfig appDir).series = [] ∧
    (defaultConfig appDir).download_path = joinPath appDir "downloads" ∧
    (defaultConfig appDir).download_path ≠ "" ∧
    (defaultConfig appDir).archive_file = "downloaded.txt" ∧
    (defaultConfig appDir).debug = false ∧
    (defaultConfig appDir).yt_dlp_options = defaultYtDlpOptions ∧
    defaultYtDlpOptions ≠ [] ∧
    load_config appDir (some (encodeConfig (defaultConfig appDir))) =
      Except.ok (defaultConfig appDir, some (encodeConfig (defaultConfig appDir))) := by
  refine ⟨rfl, rfl, rfl, ?_, rfl, rfl, rfl, by decide, ?_⟩
  · exact joinPath_ne_empty appDir "downloads" (by decide)
  · simp [load_config, decodeConfig_encodeConfig]

/-- C10: download_episodes never reads its configuration argument — for
any two configurations, both the spawned worker command and the whole
observable trace coincide, so the run depends only on the persisted file
path and the worker behavior. -/
theorem download_config_noninterference (c1 c2 : Config) (run : WorkerRun)
    (scriptPath appDir : String) :
    download_episodes_trace c1 run = download_episodes_trace c2 run ∧
    download_command scriptPath appDir c1 = download_command scriptPath appDir c2 :=
  ⟨rfl, rfl⟩

end TverDl
